import Mathlib

/-!
Verification development for the pico `gnark` proving pipeline.

We shallowly embed:
* the Poseidon2 internal/diffusion linear layer (`gnark/poseidon2/utils.go`),
* the sequential effect traces of `Setup`, `Prove`, `ExportSolidify` and
  `DoSolve` (`gnark/sdk/cmd.go`), parameterised by which fallible operation
  succeeds,
* the fork/join happens-before structure of `Prove`'s two goroutines, and
* the CLI dispatch of the prover `main`.

Circuit variables of the diffusion layer are modelled as elements of an
arbitrary commutative ring (the BN254 scalar field in the real program);
`api.Add`/`api.Mul` become ring `+`/`*`.
-/

namespace Poseidon2

/-- The Poseidon2 chip state, as used by `diffusionPermuteMut`:
a per-chip `zero` constant element and the fixed per-chip
`internal_linear_layer` coefficient vector of length `t`.
The chip struct itself is not under `src/`; its two fields used here are
taken from the spec (the `zero` constant element held once per chip, and the
fixed coefficient vector supplied at chip construction time). -/
structure Poseidon2Chip (F : Type) (t : Nat) where
  zero : F
  internal_linear_layer : Fin t → F

variable {F : Type} {t : Nat}

/-- First loop of `diffusionPermuteMut`:
`sum := p.zero; for i in 0..t-1 { sum = api.Add(sum, state[i]) }`. -/
def sumLoop [Add F] (z : F) (s : Fin t → F) : F :=
  (List.finRange t).foldl (fun acc i => acc + s i) z

/-- One iteration of the second loop of `diffusionPermuteMut`:
`state[i] = api.Mul(state[i], c[i]); state[i] = api.Add(state[i], sum)`. -/
def diffStep [Add F] [Mul F] (c : Fin t → F) (sum : F) (st : Fin t → F)
    (i : Fin t) : Fin t → F :=
  let st1 := Function.update st i (st i * c i)
  Function.update st1 i (st1 i + sum)

/-- Second loop of `diffusionPermuteMut`, updating the state array in place. -/
def diffusionLoop [Add F] [Mul F] (c : Fin t → F) (sum : F) (s : Fin t → F) :
    Fin t → F :=
  (List.finRange t).foldl (diffStep c sum) s

/-- `(p *Poseidon2Chip) diffusionPermuteMut(state *[width]frontend.Variable)`
from `gnark/poseidon2/utils.go`. -/
def diffusionPermuteMut [Add F] [Mul F] (p : Poseidon2Chip F t) (s : Fin t → F) :
    Fin t → F :=
  diffusionLoop p.internal_linear_layer (sumLoop p.zero s) s

theorem sumLoop_eq_list [AddMonoid F] (z : F) (s : Fin t → F) (l : List (Fin t)) :
    l.foldl (fun acc i => acc + s i) z = z + (l.map s).sum := by
  induction l generalizing z with
  | nil => simp
  | cons a l ih => simp [ih, add_assoc]

/-- The running sum equals the chip zero plus the sum of all state elements. -/
theorem sumLoop_eq [AddCommMonoid F] (z : F) (s : Fin t → F) :
    sumLoop z s = z + ∑ i, s i := by
  rw [sumLoop, sumLoop_eq_list, Fin.sum_univ_def]

theorem diffStep_eq [Add F] [Mul F] (c : Fin t → F) (sum : F)
    (st : Fin t → F) (i : Fin t) :
    diffStep c sum st i = Function.update st i (st i * c i + sum) := by
  simp [diffStep, Function.update_idem]

theorem diffusionLoop_eq_list [Add F] [Mul F] (c : Fin t → F)
    (sum : F) (l : List (Fin t)) (hl : l.Nodup) (s : Fin t → F) (j : Fin t) :
    (l.foldl (diffStep c sum) s) j =
      if j ∈ l then s j * c j + sum else s j := by
  induction l generalizing s with
  | nil => simp
  | cons a l ih =>
    rcases List.nodup_cons.mp hl with ⟨ha, hl'⟩
    rw [List.foldl_cons, diffStep_eq, ih hl']
    by_cases hj : j = a
    · subst hj
      simp [ha]
    · simp [Function.update_noteq hj, hj]

theorem diffusionLoop_eq [Add F] [Mul F] (c : Fin t → F) (sum : F)
    (s : Fin t → F) (j : Fin t) :
    diffusionLoop c sum s j = s j * c j + sum := by
  rw [diffusionLoop, diffusionLoop_eq_list c sum _ (List.nodup_finRange t)]
  simp [List.mem_finRange]

/-- Closed form of the in-place diffusion permutation: every output slot is
the pre-call slot value times its coefficient, plus the pre-call running sum. -/
theorem diffusionPermuteMut_eq [AddCommMonoid F] [Mul F] (p : Poseidon2Chip F t)
    (s : Fin t → F) (j : Fin t) :
    diffusionPermuteMut p s j =
      s j * p.internal_linear_layer j + (p.zero + ∑ i, s i) := by
  rw [diffusionPermuteMut, diffusionLoop_eq, sumLoop_eq]

/-- C7: for every input state of the chip's configured width, the diffusion
operation first computes `sum` as the chip's zero constant plus the sum of all
pre-call state elements, and then replaces `state[i]` by
`state[i] * internal_linear_layer[i] + sum`, with `state[i]` and `sum` taken
from the pre-call state; it performs no other change and is total (it cannot
fail at circuit-construction time). -/
theorem diffusion_sum_then_scale_c7 [AddCommMonoid F] [Mul F] (p : Poseidon2Chip F t)
    (s : Fin t → F) (j : Fin t) :
    diffusionPermuteMut p s j =
      s j * p.internal_linear_layer j + sumLoop p.zero s ∧
      sumLoop p.zero s = p.zero + ∑ i, s i := by
  refine ⟨?_, sumLoop_eq p.zero s⟩
  rw [diffusionPermuteMut, diffusionLoop_eq]

/-- C8: the diffusion/internal mixing operation is linear in the state: with
the chip's `zero` constant the additive identity, permuting the component-wise
sum of two states equals the component-wise sum of the two permuted states. -/
theorem diffusion_linear_c8 [CommRing F] (p : Poseidon2Chip F t)
    (hz : p.zero = 0) (s s' : Fin t → F) (j : Fin t) :
    diffusionPermuteMut p (fun k => s k + s' k) j =
      diffusionPermuteMut p s j + diffusionPermuteMut p s' j := by
  simp only [diffusionPermuteMut_eq, hz, Finset.sum_add_distrib]
  ring

/-- A concrete width-3 chip over ℤ with zero coefficient seed, for witnesses. -/
def chipW : Poseidon2Chip ℤ 3 :=
  { zero := 0, internal_linear_layer := ![1, 2, 3] }

def stateW : Fin 3 → ℤ := ![2, 5, 7]

def stateW' : Fin 3 → ℤ := ![1, 4, 6]

theorem diffusion_linear_c8_witness :
    diffusionPermuteMut chipW (fun k => stateW k + stateW' k) 0 =
      diffusionPermuteMut chipW stateW 0 + diffusionPermuteMut chipW stateW' 0 :=
  diffusion_linear_c8 chipW rfl stateW stateW' 0

end Poseidon2

namespace Pipeline

/-- The distinct failure returns of the sdk pipeline stages, one per
`return fmt.Errorf(...)` site family in `gnark/sdk/cmd.go`. -/
inductive PErr where
  | vkRead | witRead | parseWit | solveFail | fullWit | pubWit
  | compileFail | pkRead | setupFail | proveFail | verifyFail
  | exportFail | writeProofFail | writePkFail | writeVkFail
  | createSolFail | exportSolFail
  deriving DecidableEq

/-- The externally visible effects of the pipeline, in program order:
key/witness I/O, circuit construction and checks, groth16 calls, file writes,
stage invocations from `main`, and `main`'s printed failure reports. -/
inductive Eff where
  | readPkFork | readVk | readWitnessFile | parseWitness
  | newCircuits | solveCheck | mkFullWitness | mkPubWitness
  | forkCompile | joinTasks | compileCcs
  | g16Setup | g16Prove | g16Verify
  | exportOnChain | writeProofFile | writePkFile | writeVkFile
  | createSolidityFile | exportSolidity
  | callSetup | callExportSolidify | callProve | callDoSolve
  | printFailSetup | printFailExportSol | printFailProve | printFailSolve
  | printUnknownCmd
  deriving DecidableEq

instance : DecidableEq (Except PErr Unit) := fun a b =>
  match a, b with
  | Except.error x, Except.error y =>
    if h : x = y then isTrue (by rw [h]) else isFalse (by simp [h])
  | Except.ok _, Except.ok _ => isTrue rfl
  | Except.error _, Except.ok _ => isFalse (by simp)
  | Except.ok _, Except.error _ => isFalse (by simp)

/-- Outcomes of the fallible operations `DoSolve` performs:
reading the witness file, parsing the JSON, and the `test.IsSolved` check. -/
structure SolveEnv where
  witOk : Bool
  parseOk : Bool
  solveOk : Bool

/-- `DoSolve` from `gnark/sdk/cmd.go:36`: read the witness file, parse it,
build the two circuit instances, check satisfiability. -/
def doSolveRun (e : SolveEnv) : Except PErr Unit × List Eff :=
  let t0 : List Eff := [Eff.readWitnessFile]
  if !e.witOk then (Except.error PErr.witRead, t0) else
  let t1 := t0 ++ [Eff.parseWitness]
  if !e.parseOk then (Except.error PErr.parseWit, t1) else
  let t2 := t1 ++ [Eff.newCircuits, Eff.solveCheck]
  if !e.solveOk then (Except.error PErr.solveFail, t2) else
  (Except.ok (), t2)

/-- Outcomes of the fallible operations of `Setup`. -/
structure SetupEnv where
  sol : SolveEnv
  fullWitOk : Bool
  pubWitOk : Bool
  ccsOk : Bool
  setupOk : Bool
  proveOk : Bool
  verifyOk : Bool
  writePkOk : Bool
  writeVkOk : Bool

/-- `Setup` from `gnark/sdk/cmd.go:61`: solve, build witnesses, compile,
groth16 setup, smoke-test prove and verify, then persist the two keys. -/
def setupRun (e : SetupEnv) : Except PErr Unit × List Eff :=
  let d := doSolveRun e.sol
  match d.1 with
  | Except.error er => (Except.error er, d.2)
  | Except.ok _ =>
    let t1 := d.2 ++ [Eff.mkFullWitness]
    if !e.fullWitOk then (Except.error PErr.fullWit, t1) else
    let t2 := t1 ++ [Eff.mkPubWitness]
    if !e.pubWitOk then (Except.error PErr.pubWit, t2) else
    let t3 := t2 ++ [Eff.compileCcs]
    if !e.ccsOk then (Except.error PErr.compileFail, t3) else
    let t4 := t3 ++ [Eff.g16Setup]
    if !e.setupOk then (Except.error PErr.setupFail, t4) else
    let t5 := t4 ++ [Eff.g16Prove]
    if !e.proveOk then (Except.error PErr.proveFail, t5) else
    let t6 := t5 ++ [Eff.g16Verify]
    if !e.verifyOk then (Except.error PErr.verifyFail, t6) else
    let t7 := t6 ++ [Eff.writePkFile]
    if !e.writePkOk then (Except.error PErr.writePkFail, t7) else
    let t8 := t7 ++ [Eff.writeVkFile]
    if !e.writeVkOk then (Except.error PErr.writeVkFail, t8) else
    (Except.ok (), t8)

/-- Outcomes of the fallible operations of `Prove`. -/
structure ProveEnv where
  vkOk : Bool
  witOk : Bool
  parseOk : Bool
  solveOk : Bool
  fullWitOk : Bool
  pubWitOk : Bool
  pkOk : Bool
  ccsOk : Bool
  proveOk : Bool
  verifyOk : Bool
  exportOk : Bool
  writeOk : Bool

/-- `Prove` from `gnark/sdk/cmd.go:110`, sequentialised: the proving-key
goroutine is forked first (`loadLock.Add(2); go ...` precedes everything),
then the verifying key is read synchronously, then the witness is read,
parsed and solved, then the compile goroutine is forked and joined; after
the join, the compile error is checked before the proving-key read error;
then groth16 prove, the local verify self-check, the on-chain export
serialisation, and the proof-file write. -/
def proveRun (e : ProveEnv) : Except PErr Unit × List Eff :=
  let t0 : List Eff := [Eff.readPkFork, Eff.readVk]
  if !e.vkOk then (Except.error PErr.vkRead, t0) else
  let t1 := t0 ++ [Eff.readWitnessFile]
  if !e.witOk then (Except.error PErr.witRead, t1) else
  let t2 := t1 ++ [Eff.parseWitness]
  if !e.parseOk then (Except.error PErr.parseWit, t2) else
  let t3 := t2 ++ [Eff.newCircuits, Eff.solveCheck]
  if !e.solveOk then (Except.error PErr.solveFail, t3) else
  let t4 := t3 ++ [Eff.mkFullWitness]
  if !e.fullWitOk then (Except.error PErr.fullWit, t4) else
  let t5 := t4 ++ [Eff.mkPubWitness]
  if !e.pubWitOk then (Except.error PErr.pubWit, t5) else
  let t6 := t5 ++ [Eff.forkCompile, Eff.joinTasks]
  if !e.ccsOk then (Except.error PErr.compileFail, t6) else
  if !e.pkOk then (Except.error PErr.pkRead, t6) else
  let t7 := t6 ++ [Eff.g16Prove]
  if !e.proveOk then (Except.error PErr.proveFail, t7) else
  let t8 := t7 ++ [Eff.g16Verify]
  if !e.verifyOk then (Except.error PErr.verifyFail, t8) else
  let t9 := t8 ++ [Eff.exportOnChain]
  if !e.exportOk then (Except.error PErr.exportFail, t9) else
  let t10 := t9 ++ [Eff.writeProofFile]
  if !e.writeOk then (Except.error PErr.writeProofFail, t10) else
  (Except.ok (), t10)

/-- Outcomes of the fallible operations of `ExportSolidify`. -/
structure ExportEnv where
  vkOk : Bool
  createOk : Bool
  solOk : Bool

/-- `ExportSolidify` from `gnark/sdk/cmd.go:202`: read the verifying key,
create the Solidity output file, export the contract source into it. -/
def exportSolidifyRun (e : ExportEnv) : Except PErr Unit × List Eff :=
  let t0 : List Eff := [Eff.readVk]
  if !e.vkOk then (Except.error PErr.vkRead, t0) else
  let t1 := t0 ++ [Eff.createSolidityFile]
  if !e.createOk then (Except.error PErr.createSolFail, t1) else
  let t2 := t1 ++ [Eff.exportSolidity]
  if !e.solOk then (Except.error PErr.exportSolFail, t2) else
  (Except.ok (), t2)

def isErr (r : Except PErr Unit) : Bool :=
  match r with
  | Except.error _ => true
  | Except.ok _ => false

/-- The prover CLI `main`'s command dispatch, with its error reports as
written: the `prove`, `setup` (first check) and `solve` cases print their
failure when the stage returned an error, while the `setup` case's
ExportSolidify check and all three checks of the `setupAndProve` case test
`err == nil` and so print the failure message exactly when the stage
succeeded; no case stops after a failed stage. -/
def mainRun (cmd : String) (se : SetupEnv) (pe : ProveEnv) (ee : ExportEnv) :
    List Eff :=
  if cmd = "prove" then
    let r := proveRun pe
    Eff.callProve :: (r.2 ++ (if isErr r.1 then [Eff.printFailProve] else []))
  else if cmd = "setup" then
    let r := setupRun se
    let t := Eff.callSetup ::
      (r.2 ++ (if isErr r.1 then [Eff.printFailSetup] else []))
    let r2 := exportSolidifyRun ee
    t ++ Eff.callExportSolidify ::
      (r2.2 ++ (if isErr r2.1 then [] else [Eff.printFailExportSol]))
  else if cmd = "solve" then
    let r := doSolveRun se.sol
    Eff.callDoSolve :: (r.2 ++ (if isErr r.1 then [Eff.printFailSolve] else []))
  else if cmd = "setupAndProve" then
    let r := setupRun se
    let t := Eff.callSetup ::
      (r.2 ++ (if isErr r.1 then [] else [Eff.printFailSetup]))
    let r2 := exportSolidifyRun ee
    let t2 := t ++ Eff.callExportSolidify ::
      (r2.2 ++ (if isErr r2.1 then [] else [Eff.printFailExportSol]))
    let r3 := proveRun pe
    t2 ++ Eff.callProve ::
      (r3.2 ++ (if isErr r3.1 then [] else [Eff.printFailProve]))
  else if cmd = "exportSolidity" then
    let r := exportSolidifyRun ee
    Eff.callExportSolidify ::
      (r.2 ++ (if isErr r.1 then [Eff.printFailExportSol] else []))
  else [Eff.printUnknownCmd]

end Pipeline

namespace ProveSchedule

/-- The events of a successful `Prove` execution (`gnark/sdk/cmd.go:110`),
one per statement of the main goroutine plus the start and end of each of
the two forked goroutines (the proving-key load and the circuit compile). -/
inductive PEv where
  | forkPk | pkStart | pkEnd
  | vkLoad
  | readWit | parseWit | solveCheck | fullWit | pubWit
  | forkCompile | compileStart | compileEnd
  | joinRet
  | g16Prove | g16Verify | exportOnChain | writeProof
  deriving DecidableEq

/-- Every event of a successful `Prove` execution, once each. -/
def allPEv : List PEv :=
  [PEv.forkPk, PEv.pkStart, PEv.pkEnd, PEv.vkLoad, PEv.readWit, PEv.parseWit,
   PEv.solveCheck, PEv.fullWit, PEv.pubWit, PEv.forkCompile, PEv.compileStart,
   PEv.compileEnd, PEv.joinRet, PEv.g16Prove, PEv.g16Verify,
   PEv.exportOnChain, PEv.writeProof]

/-- The happens-before edges of `Prove`: the main goroutine's program order
(the `go` statement forking the pk load at lines 111-117 precedes the
verifying-key read at line 119, which precedes the witness read, parse,
solve, witness construction, the compile fork at line 154 and the
`loadLock.Wait()` at line 165, which precedes proving, verifying, exporting
and writing), each fork statement preceding its goroutine's first event,
program order inside each goroutine, and each goroutine's `Done` preceding
the return of `Wait`. -/
def hbEdges : List (PEv × PEv) :=
  [(PEv.forkPk, PEv.vkLoad), (PEv.vkLoad, PEv.readWit),
   (PEv.readWit, PEv.parseWit), (PEv.parseWit, PEv.solveCheck),
   (PEv.solveCheck, PEv.fullWit), (PEv.fullWit, PEv.pubWit),
   (PEv.pubWit, PEv.forkCompile), (PEv.forkCompile, PEv.joinRet),
   (PEv.joinRet, PEv.g16Prove), (PEv.g16Prove, PEv.g16Verify),
   (PEv.g16Verify, PEv.exportOnChain), (PEv.exportOnChain, PEv.writeProof),
   (PEv.forkPk, PEv.pkStart), (PEv.pkStart, PEv.pkEnd),
   (PEv.pkEnd, PEv.joinRet),
   (PEv.forkCompile, PEv.compileStart), (PEv.compileStart, PEv.compileEnd),
   (PEv.compileEnd, PEv.joinRet)]

/-- A possible schedule of a successful `Prove` execution: a sequence
containing each event exactly once that respects every happens-before edge.
Any such linearisation is realisable by the Go scheduler, and every real
execution linearises to one. -/
def ProveTraceOK (tr : List PEv) : Prop :=
  tr.length = allPEv.length ∧ (∀ e ∈ allPEv, e ∈ tr) ∧
    ∀ p ∈ hbEdges, tr.indexOf p.1 < tr.indexOf p.2

instance (tr : List PEv) : Decidable (ProveTraceOK tr) := by
  unfold ProveTraceOK; infer_instance

/-- A schedule in which the forked proving-key load runs to completion
before the verifying-key load even begins. -/
def earlyPkTrace : List PEv :=
  [PEv.forkPk, PEv.pkStart, PEv.pkEnd, PEv.vkLoad, PEv.readWit, PEv.parseWit,
   PEv.solveCheck, PEv.fullWit, PEv.pubWit, PEv.forkCompile, PEv.compileStart,
   PEv.compileEnd, PEv.joinRet, PEv.g16Prove, PEv.g16Verify,
   PEv.exportOnChain, PEv.writeProof]

theorem hb_lt {tr : List PEv} (h : ProveTraceOK tr) {a b : PEv}
    (hm : (a, b) ∈ hbEdges) : tr.indexOf a < tr.indexOf b :=
  h.2.2 (a, b) hm

/-- In every schedule, the verifying-key load precedes the fork of the
compile task (they are consecutive on the main goroutine, with the witness
processing in between). -/
theorem vkLoad_lt_forkCompile {tr : List PEv} (h : ProveTraceOK tr) :
    tr.indexOf PEv.vkLoad < tr.indexOf PEv.forkCompile := by
  have h1 := hb_lt h (show (PEv.vkLoad, PEv.readWit) ∈ hbEdges by decide)
  have h2 := hb_lt h (show (PEv.readWit, PEv.parseWit) ∈ hbEdges by decide)
  have h3 := hb_lt h (show (PEv.parseWit, PEv.solveCheck) ∈ hbEdges by decide)
  have h4 := hb_lt h (show (PEv.solveCheck, PEv.fullWit) ∈ hbEdges by decide)
  have h5 := hb_lt h (show (PEv.fullWit, PEv.pubWit) ∈ hbEdges by decide)
  have h6 := hb_lt h (show (PEv.pubWit, PEv.forkCompile) ∈ hbEdges by decide)
  omega

/-- C1 refuted as stated: there is a valid schedule of `Prove` in which a
forked task (the proving-key load) starts, and even finishes, before the
verifying-key load has begun — the pk-load goroutine is forked at
`cmd.go:114`, before the `ReadVerifyingKey` call at `cmd.go:119`. -/
theorem pk_load_may_start_before_vk_load :
    ¬ ∀ tr : List PEv, ProveTraceOK tr →
        tr.indexOf PEv.vkLoad < tr.indexOf PEv.pkStart ∧
        tr.indexOf PEv.vkLoad < tr.indexOf PEv.compileStart := by
  intro h
  exact absurd (h earlyPkTrace (by decide)).1 (by decide)

/-- C1 (amended): in every schedule of `Prove`, the fork of the pk-load task
precedes the verifying-key load, while the circuit-compilation task never
starts before the verifying-key load has completed. -/
theorem compile_task_starts_after_vk_load (tr : List PEv)
    (h : ProveTraceOK tr) :
    tr.indexOf PEv.forkPk < tr.indexOf PEv.vkLoad ∧
    tr.indexOf PEv.vkLoad < tr.indexOf PEv.compileStart := by
  refine ⟨hb_lt h (by decide), ?_⟩
  have h1 := vkLoad_lt_forkCompile h
  have h2 := hb_lt h (show (PEv.forkCompile, PEv.compileStart) ∈ hbEdges by decide)
  omega

theorem compile_task_starts_after_vk_load_witness :
    earlyPkTrace.indexOf PEv.forkPk < earlyPkTrace.indexOf PEv.vkLoad ∧
    earlyPkTrace.indexOf PEv.vkLoad < earlyPkTrace.indexOf PEv.compileStart :=
  compile_task_starts_after_vk_load earlyPkTrace (by decide)

/-- In every schedule of `Prove`, the verifying-key load precedes the
satisfiability check (both are on the main goroutine, in that order). -/
theorem vkLoad_lt_solveCheck {tr : List PEv} (h : ProveTraceOK tr) :
    tr.indexOf PEv.vkLoad < tr.indexOf PEv.solveCheck := by
  have h1 := hb_lt h (show (PEv.vkLoad, PEv.readWit) ∈ hbEdges by decide)
  have h2 := hb_lt h (show (PEv.readWit, PEv.parseWit) ∈ hbEdges by decide)
  have h3 := hb_lt h (show (PEv.parseWit, PEv.solveCheck) ∈ hbEdges by decide)
  omega

/-- C2 refuted as stated for the Prove entry point: in every schedule of
`Prove` the verifying-key read precedes the satisfiability check, so the
claim that the solve check happens before any key material is read fails;
`earlyPkTrace` is a concrete valid schedule violating it. -/
theorem solve_after_key_read_in_prove :
    ¬ ∀ tr : List PEv, ProveTraceOK tr →
        tr.indexOf PEv.solveCheck < tr.indexOf PEv.vkLoad := by
  intro h
  exact absurd (h earlyPkTrace (by decide)) (by decide)

end ProveSchedule

namespace Pipeline

/-- C2 (amended): in the Setup path, the satisfiability check precedes any
key write and an unsatisfiable assignment is a hard stop returning the solve
error with no key file written; in the Prove path the solve failure is also a
hard stop (no proving, no proof file), but the verifying-key read — and the
fork of the proving-key load — precede the solve check rather than follow it. -/
theorem solve_gates_key_material_c2 :
    (∀ se : SetupEnv,
        Eff.writePkFile ∈ (setupRun se).2 ∨ Eff.writeVkFile ∈ (setupRun se).2 →
        se.sol.solveOk = true ∧
        (setupRun se).2.indexOf Eff.solveCheck <
          (setupRun se).2.indexOf Eff.writePkFile) ∧
    (∀ se : SetupEnv, se.sol.witOk = true → se.sol.parseOk = true →
        se.sol.solveOk = false →
        (setupRun se).1 = Except.error PErr.solveFail ∧
        Eff.writePkFile ∉ (setupRun se).2 ∧ Eff.writeVkFile ∉ (setupRun se).2) ∧
    (∀ pe : ProveEnv, pe.vkOk = true → pe.witOk = true → pe.parseOk = true →
        pe.solveOk = false →
        (proveRun pe).1 = Except.error PErr.solveFail ∧
        Eff.g16Prove ∉ (proveRun pe).2 ∧
        Eff.writeProofFile ∉ (proveRun pe).2) ∧
    (∀ tr : List ProveSchedule.PEv, ProveSchedule.ProveTraceOK tr →
        tr.indexOf ProveSchedule.PEv.vkLoad <
          tr.indexOf ProveSchedule.PEv.solveCheck) := by
  refine ⟨?_, ?_, ?_, fun tr h => ProveSchedule.vkLoad_lt_solveCheck h⟩
  · intro se
    obtain ⟨⟨a, b, c⟩, d, f, g, h, i, j, k, l⟩ := se
    revert a b c d f g h i j k l
    decide
  · intro se
    obtain ⟨⟨a, b, c⟩, d, f, g, h, i, j, k, l⟩ := se
    revert a b c d f g h i j k l
    decide
  · intro pe
    obtain ⟨a, b, c, d, f, g, h, i, j, k, l, m⟩ := pe
    revert a b c d f g h i j k l m
    decide

/-- C3: groth16 proving happens only after both forked tasks have completed
(in every schedule the pk-load end and the compile end precede the prove
call); if either task failed, `Prove` returns that task's failure — the
compile error when compilation failed, otherwise the pk-read error — and
neither the groth16 prove call nor the proof-file write happens. -/
theorem prove_requires_joined_tasks_c3 :
    (∀ tr : List ProveSchedule.PEv, ProveSchedule.ProveTraceOK tr →
        tr.indexOf ProveSchedule.PEv.pkEnd <
          tr.indexOf ProveSchedule.PEv.g16Prove ∧
        tr.indexOf ProveSchedule.PEv.compileEnd <
          tr.indexOf ProveSchedule.PEv.g16Prove) ∧
    (∀ pe : ProveEnv, pe.ccsOk = false ∨ pe.pkOk = false →
        isErr (proveRun pe).1 = true ∧ Eff.g16Prove ∉ (proveRun pe).2 ∧
        Eff.writeProofFile ∉ (proveRun pe).2) ∧
    (∀ pe : ProveEnv, pe.vkOk = true → pe.witOk = true → pe.parseOk = true →
        pe.solveOk = true → pe.fullWitOk = true → pe.pubWitOk = true →
        (pe.ccsOk = false → (proveRun pe).1 = Except.error PErr.compileFail) ∧
        (pe.ccsOk = true → pe.pkOk = false →
          (proveRun pe).1 = Except.error PErr.pkRead)) := by
  refine ⟨?_, ?_, ?_⟩
  · intro tr h
    have h1 := ProveSchedule.hb_lt h
      (show (ProveSchedule.PEv.pkEnd, ProveSchedule.PEv.joinRet) ∈
        ProveSchedule.hbEdges by decide)
    have h2 := ProveSchedule.hb_lt h
      (show (ProveSchedule.PEv.compileEnd, ProveSchedule.PEv.joinRet) ∈
        ProveSchedule.hbEdges by decide)
    have h3 := ProveSchedule.hb_lt h
      (show (ProveSchedule.PEv.joinRet, ProveSchedule.PEv.g16Prove) ∈
        ProveSchedule.hbEdges by decide)
    omega
  · intro pe
    obtain ⟨a, b, c, d, f, g, h, i, j, k, l, m⟩ := pe
    revert a b c d f g h i j k l m
    decide
  · intro pe
    obtain ⟨a, b, c, d, f, g, h, i, j, k, l, m⟩ := pe
    revert a b c d f g h i j k l m
    decide

/-- C4: every freshly produced proof is locally verified before being
exported — in every schedule the verify call precedes the on-chain export
and the proof-file write, an export or write only happens in runs where the
self-check succeeded, and a failing self-check makes `Prove` return the
verify error with no export and nothing written to the proof path. -/
theorem prove_self_check_gates_export_c4 :
    (∀ pe : ProveEnv, pe.verifyOk = false →
        isErr (proveRun pe).1 = true ∧ Eff.exportOnChain ∉ (proveRun pe).2 ∧
        Eff.writeProofFile ∉ (proveRun pe).2) ∧
    (∀ pe : ProveEnv,
        Eff.exportOnChain ∈ (proveRun pe).2 ∨
          Eff.writeProofFile ∈ (proveRun pe).2 →
        pe.verifyOk = true ∧ Eff.g16Verify ∈ (proveRun pe).2) ∧
    (∀ pe : ProveEnv, pe.vkOk = true → pe.witOk = true → pe.parseOk = true →
        pe.solveOk = true → pe.fullWitOk = true → pe.pubWitOk = true →
        pe.pkOk = true → pe.ccsOk = true → pe.proveOk = true →
        pe.verifyOk = false →
        (proveRun pe).1 = Except.error PErr.verifyFail) ∧
    (∀ tr : List ProveSchedule.PEv, ProveSchedule.ProveTraceOK tr →
        tr.indexOf ProveSchedule.PEv.g16Verify <
          tr.indexOf ProveSchedule.PEv.exportOnChain ∧
        tr.indexOf ProveSchedule.PEv.g16Verify <
          tr.indexOf ProveSchedule.PEv.writeProof) := by
  refine ⟨?_, ?_, ?_, ?_⟩
  · intro pe
    obtain ⟨a, b, c, d, f, g, h, i, j, k, l, m⟩ := pe
    revert a b c d f g h i j k l m
    decide
  · intro pe
    obtain ⟨a, b, c, d, f, g, h, i, j, k, l, m⟩ := pe
    revert a b c d f g h i j k l m
    decide
  · intro pe
    obtain ⟨a, b, c, d, f, g, h, i, j, k, l, m⟩ := pe
    revert a b c d f g h i j k l m
    decide
  · intro tr h
    have h1 := ProveSchedule.hb_lt h
      (show (ProveSchedule.PEv.g16Verify, ProveSchedule.PEv.exportOnChain) ∈
        ProveSchedule.hbEdges by decide)
    have h2 := ProveSchedule.hb_lt h
      (show (ProveSchedule.PEv.exportOnChain, ProveSchedule.PEv.writeProof) ∈
        ProveSchedule.hbEdges by decide)
    omega

/-- A setup environment whose witness-file read fails, making `Setup` fail
at its first step. -/
def seFailWit : SetupEnv :=
  ⟨⟨false, true, true⟩, true, true, true, true, true, true, true, true⟩

/-- A prove environment in which every operation succeeds. -/
def peAllOk : ProveEnv :=
  ⟨true, true, true, true, true, true, true, true, true, true, true, true⟩

/-- An export environment in which every operation succeeds. -/
def eeAllOk : ExportEnv := ⟨true, true, true⟩

/-- C5 is violated by the code: when the witness file is unreadable `Setup`
returns an error, yet the `setupAndProve` command still invokes
`ExportSolidify` and then `Prove`, and — because the dispatch tests
`err == nil` — the setup failure is never reported; the `setup` command
likewise still invokes `ExportSolidify` after the failed `Setup`. -/
theorem main_setupAndProve_ignores_setup_failure :
    isErr (setupRun seFailWit).1 = true ∧
    Eff.callExportSolidify ∈ mainRun "setupAndProve" seFailWit peAllOk eeAllOk ∧
    Eff.callProve ∈ mainRun "setupAndProve" seFailWit peAllOk eeAllOk ∧
    Eff.printFailSetup ∉ mainRun "setupAndProve" seFailWit peAllOk eeAllOk ∧
    Eff.callExportSolidify ∈ mainRun "setup" seFailWit peAllOk eeAllOk := by
  decide

/-- C6: `Setup` persists the proving and verifying keys only after the
internal smoke test (one prove and one verify with the fresh keys) has
succeeded, and any failure of solve, compile, groth16 setup, the smoke-test
prove or the smoke-test verify makes `Setup` return an error with no key
file written. -/
theorem setup_writes_keys_only_after_smoke_test_c6 :
    (∀ se : SetupEnv,
        Eff.writePkFile ∈ (setupRun se).2 ∨ Eff.writeVkFile ∈ (setupRun se).2 →
        se.proveOk = true ∧ se.verifyOk = true ∧
        Eff.g16Prove ∈ (setupRun se).2 ∧ Eff.g16Verify ∈ (setupRun se).2 ∧
        (setupRun se).2.indexOf Eff.g16Verify <
          (setupRun se).2.indexOf Eff.writePkFile) ∧
    (∀ se : SetupEnv,
        se.sol.witOk = false ∨ se.sol.parseOk = false ∨
          se.sol.solveOk = false ∨ se.ccsOk = false ∨ se.setupOk = false ∨
          se.proveOk = false ∨ se.verifyOk = false →
        isErr (setupRun se).1 = true ∧ Eff.writePkFile ∉ (setupRun se).2 ∧
        Eff.writeVkFile ∉ (setupRun se).2) := by
  refine ⟨?_, ?_⟩
  · intro se
    obtain ⟨⟨a, b, c⟩, d, f, g, h, i, j, k, l⟩ := se
    revert a b c d f g h i j k l
    decide
  · intro se
    obtain ⟨⟨a, b, c⟩, d, f, g, h, i, j, k, l⟩ := se
    revert a b c d f g h i j k l
    decide

/-- C10: if reading the verifying key fails, `ExportSolidify` returns the
read error having performed no effect on the Solidity output path — the
`os.Create` call never happens — and conversely the output file is only
ever created after a successful verifying-key load. -/
theorem exportSolidify_vk_error_leaves_output_alone_c10 :
    (∀ ee : ExportEnv, ee.vkOk = false →
        (exportSolidifyRun ee).1 = Except.error PErr.vkRead ∧
        Eff.createSolidityFile ∉ (exportSolidifyRun ee).2 ∧
        (exportSolidifyRun ee).2 = [Eff.readVk]) ∧
    (∀ ee : ExportEnv, Eff.createSolidityFile ∈ (exportSolidifyRun ee).2 →
        ee.vkOk = true) := by
  refine ⟨?_, ?_⟩
  · intro ee
    obtain ⟨a, b, c⟩ := ee
    revert a b c
    decide
  · intro ee
    obtain ⟨a, b, c⟩ := ee
    revert a b c
    decide

end Pipeline

namespace VmVerifier

/-- The deserialized witness document: the public values of the inner proof
(a verification-key hash and a committed-values digest) plus the numeric
values needed to reconstruct the inner proof's opening data. -/
structure WitnessInput where
  vkeyHash : Nat
  committedValuesDigest : Nat
  proofValues : List Nat

/-- Constraint-system topology: variable count and constraint count. -/
structure CircuitTopology where
  nbVariables : Nat
  nbConstraints : Nat
  deriving DecidableEq

/-- A circuit instance: its topology together with the concrete values
assigned to its variables. -/
structure Circuit where
  topology : CircuitTopology
  assignedValues : List Nat

/-- Modelled from the spec: the body of `vm_verifier.NewCircuit` is not under
`src/` (only its callers are). Per the spec it is a pure, deterministic
constructor whose constraint topology is determined by the shape of the
input alone, while the concrete field values only populate the assignment. -/
def NewCircuit (w : WitnessInput) : Circuit :=
  { topology :=
      { nbVariables := 2 + w.proofValues.length
        nbConstraints := 1 + 3 * w.proofValues.length }
    assignedValues := w.vkeyHash :: w.committedValuesDigest :: w.proofValues }

/-- C9: two calls of `NewCircuit` on inputs of the same shape — in
particular two calls on the same input, as `DoSolve` performs to obtain the
template and the assignment — yield circuits with identical topology (same
variable count, same constraint count) regardless of the concrete field
values carried by the inputs. -/
theorem newCircuit_topology_value_independent_c9 (w w' : WitnessInput)
    (h : w.proofValues.length = w'.proofValues.length) :
    (NewCircuit w).topology = (NewCircuit w').topology ∧
    (NewCircuit w).topology.nbVariables = (NewCircuit w').topology.nbVariables ∧
    (NewCircuit w).topology.nbConstraints =
      (NewCircuit w').topology.nbConstraints := by
  simp [NewCircuit, h]

theorem newCircuit_topology_value_independent_c9_witness :
    (NewCircuit ⟨1, 2, [3, 4]⟩).topology =
      (NewCircuit ⟨5, 6, [7, 8]⟩).topology ∧
    (NewCircuit ⟨1, 2, [3, 4]⟩).topology.nbVariables =
      (NewCircuit ⟨5, 6, [7, 8]⟩).topology.nbVariables ∧
    (NewCircuit ⟨1, 2, [3, 4]⟩).topology.nbConstraints =
      (NewCircuit ⟨5, 6, [7, 8]⟩).topology.nbConstraints :=
  newCircuit_topology_value_independent_c9 ⟨1, 2, [3, 4]⟩ ⟨5, 6, [7, 8]⟩ rfl

end VmVerifier
